import Mathlib

/-
Verification development for the tweet-dataset helper module (helpers.py).

The module is embedded shallowly:
  * a dataframe cell is a Cell (the NA marker, a string, an integer, a
    boolean, or a raw media-descriptor string viewed through the outcome of
    the Python literal parser, see MediaStr below);
  * a dataframe row is an association list from column name to Cell, and a
    dataframe (Df) is a column-name list plus a row list;
  * Python code that can raise is embedded in the exception monad
    Py alpha = Except String alpha, the String naming the exception;
  * ast.literal_eval is Python standard library, not repository code, so the
    raw attachments.media text is embedded as its parse outcome (MediaStr):
    either the parser fails (unparsable), or it yields a list of records,
    each record a string-to-string dictionary given as an association list.
-/

set_option autoImplicit false

namespace Helpers

/-- Parse outcome of ast.literal_eval on a raw attachments.media string:
either the literal is malformed (literal_eval raises ValueError), or it
denotes a list of media-descriptor records, each a dictionary from string
keys to string values. -/
inductive MediaStr where
  | unparsable
  | records (recs : List (List (String × String)))
deriving DecidableEq, Repr

/-- One dataframe cell: the NA marker (NaN or None, what pd.isna detects),
a string, an integer, a boolean, or a raw media-descriptor string embedded
as its literal_eval outcome. -/
inductive Cell where
  | na
  | str (s : String)
  | int (n : Int)
  | boolv (b : Bool)
  | mediaEnc (m : MediaStr)
deriving DecidableEq, Repr

/-- Embedding of pd.isna on one cell. -/
def isna : Cell → Bool
  | .na => true
  | _ => false

/-- Python str() of a cell value, as interpolated by an f-string.  The
original text behind a mediaEnc cell is abstracted away by the embedding, so
its rendering is a fixed placeholder; no verified claim depends on it. -/
def cellStr : Cell → String
  | .na => "nan"
  | .str s => s
  | .int n => toString n
  | .boolv b => if b then "True" else "False"
  | .mediaEnc _ => "media-literal"

/-- Python computations that can raise: the error carries the exception name. -/
abbrev Py (α : Type) : Type := Except String α

/-- A dataframe row: an association list from column name to cell. -/
abbrev Row : Type := List (String × Cell)

/-- Row lookup, the embedding of tweet[key] on a row: a missing key raises
KeyError. -/
def rowGet (r : Row) (k : String) : Py Cell :=
  match r.lookup k with
  | some v => .ok v
  | none => .error ("KeyError: " ++ k)

/-- Setting one field of a row, the embedding of a column assignment seen at
row level: replace the first pair holding the key, or append the pair at the
end when the key is absent (pandas appends new columns on the right). -/
def rowSet (r : Row) (k : String) (v : Cell) : Row :=
  match r with
  | [] => [(k, v)]
  | (k0, v0) :: rest => if k0 = k then (k, v) :: rest else (k0, v0) :: rowSet rest k v

/-- Embedding of dict.get(key, default) on a media-descriptor record. -/
def dictGetD (rec : List (String × String)) (k d : String) : String :=
  (rec.lookup k).getD d

/-- Sentinel used in place of no image (NO_IMAGE in helpers.py). -/
def NO_IMAGE : String := "No image URL"

/-- Embedding of make_tweet_url: the argument is the row of the two selected
columns, positions 0 and 1 holding the username and the tweet id; indexing
past the end raises IndexError, and the f-string interpolates str() of each
value. -/
def make_tweet_url (tweets : List Cell) : Py String :=
  match tweets[0]? with
  | none => .error "IndexError"
  | some username =>
    match tweets[1]? with
    | none => .error "IndexError"
    | some tweet_id =>
      .ok ("https://twitter.com/" ++ cellStr username ++ "/status/" ++ cellStr tweet_id)

/-- Embedding of get_image_url, applied to one raw attachments.media cell.
The source runs literal_eval(media)[0] and then .get with the sentinel as
the default, guarded only by a pd.isna check: literal_eval on a malformed
literal raises ValueError, indexing an empty list raises IndexError, and
literal_eval on a non-string non-NA value raises ValueError. -/
def get_image_url (media : Cell) : Py String :=
  if !(isna media) then
    match media with
    | .mediaEnc .unparsable => .error "ValueError"
    | .mediaEnc (.records []) => .error "IndexError"
    | .mediaEnc (.records (rec :: _)) => .ok (dictGetD rec "url" NO_IMAGE)
    | _ => .error "ValueError"
  else
    .ok NO_IMAGE

/-- Embedding of get_image_html: a non-sentinel URL is wrapped in the HTML
anchor-plus-image markup produced by the f-string in the source (including
the stray quote character after the opening anchor tag); the sentinel passes
through unchanged.  The \x27 escapes denote the single-quote character. -/
def get_image_html (url : String) : String :=
  if url ≠ NO_IMAGE then
    "<a href=\x27" ++ url ++ "\x27>\x27<img src=\x27" ++ url ++ "\x27 width=\x27500px\x27></a>"
  else
    url

/-- Embedding of find_tweet_type over a full row: each field access
tweet[key] happens at its use site (so lookups short-circuit exactly as in
the source), and each branch tests pd.isna of the fetched cell. -/
def find_tweet_type (tweet : Row) : Py String := do
  let retweeted ← rowGet tweet "referenced_tweets.retweeted.id"
  if !(isna retweeted) then
    return "retweet"
  let quoted ← rowGet tweet "referenced_tweets.quoted.id"
  if !(isna quoted) then
    let replied ← rowGet tweet "referenced_tweets.replied_to.id"
    if !(isna replied) then
      return "quote/reply"
    return "quote"
  let replied ← rowGet tweet "referenced_tweets.replied_to.id"
  if !(isna replied) then
    return "reply"
  return "original"

/-- A dataframe: the list of column names plus the rows.  In a well-formed
frame every row binds exactly the listed column names in order; the
operations below keep that shape. -/
structure Df where
  colNames : List String
  rows : List Row
deriving DecidableEq, Repr

/-- Exception-monad map over a list, the evaluation of a per-row operation
over all rows of a series: the first raised exception aborts the whole
computation, as the underlying apply call does. -/
def mapE {α β : Type} (f : α → Py β) : List α → Py (List β)
  | [] => .ok []
  | a :: l => do
    let b ← f a
    let bs ← mapE f l
    return b :: bs

/-- Column-membership test, the embedding of the expression (name in df). -/
def hasCol (df : Df) (c : String) : Bool :=
  c ∈ df.colNames

/-- Add a name to the column-name list when it is not already present. -/
def addName (cs : List String) (n : String) : List String :=
  if n ∈ cs then cs else cs ++ [n]

/-- Embedding of a column assignment df[name] = series.apply(f) where f
reads only the current row: the series is computed row by row and the result
stored in the row, and any exception aborts the assignment.  Because f is a
pure function of the row, this is observationally the compute-whole-series-
then-assign order of the source. -/
def addColFromApply (df : Df) (name : String) (f : Row → Py Cell) : Py Df := do
  let rows ← mapE (fun r => do
    let v ← f r
    return rowSet r name v) df.rows
  return { colNames := addName df.colNames name, rows := rows }

/-- Embedding of a constant-scalar column assignment df[name] = v. -/
def setConstCol (df : Df) (name : String) (v : Cell) : Df :=
  { colNames := addName df.colNames name
    rows := df.rows.map (fun r => rowSet r name v) }

/-- The fixed rename table passed to df.rename in format_df. -/
def renameMap : List (String × String) :=
  [("author.name", "name"),
   ("author.username", "username"),
   ("author.verified", "verified"),
   ("public_metrics.impression_count", "impressions"),
   ("public_metrics.like_count", "likes"),
   ("public_metrics.quote_count", "quotes"),
   ("public_metrics.reply_count", "replies"),
   ("public_metrics.retweet_count", "retweets"),
   ("author.description", "user_bio")]

/-- Rename of one column name under the fixed rename table: names outside
the table are kept. -/
def applyRename (n : String) : String :=
  (renameMap.lookup n).getD n

/-- Rename of one key-cell pair of a row under the fixed rename table. -/
def renamePair (p : String × Cell) : String × Cell :=
  (applyRename p.1, p.2)

/-- Embedding of df.rename(columns=renameMap): every column label is mapped
through the table, values untouched. -/
def renameDf (df : Df) : Df :=
  { colNames := df.colNames.map applyRename
    rows := df.rows.map (fun r => r.map renamePair) }

/-- The tweet_url series of format_df at one row: select the username and
id fields of the row and hand them, in that order, to make_tweet_url. -/
def tweetUrlCell (username : String) (r : Row) : Py Cell := do
  let u ← rowGet r username
  let i ← rowGet r "id"
  let s ← make_tweet_url [u, i]
  return .str s

/-- The media series of format_df at one row: the attachments.media field
through get_image_url. -/
def mediaCell (r : Row) : Py Cell := do
  let m ← rowGet r "attachments.media"
  let s ← get_image_url m
  return .str s

/-- The optional HTML media series of format_df at one row: the media
field, as the string it holds, through get_image_html. -/
def mediaHtmlCell (r : Row) : Py Cell := do
  let m ← rowGet r "media"
  return .str (get_image_html (cellStr m))

/-- The type series of format_df at one row: the row through
find_tweet_type. -/
def typeCell (r : Row) : Py Cell := do
  let t ← find_tweet_type r
  return .str t

/-- Embedding of format_df.  The source tries the Dask code path first and
falls back to the identical Pandas path when the meta keyword raises
TypeError; the meta arguments only declare output dtypes, so both paths run
the same sequence of column assignments, embedded once here:
tweet_url from the two selected columns, media from attachments.media,
optionally the HTML wrapping of media, type from the three referenced-tweet
columns, the constant tweet_count column, and the final rename. -/
def format_df (df : Df) (incl_html : Bool) : Py Df := do
  let username := if hasCol df "author.username" then "author.username" else "username"
  let df ← addColFromApply df "tweet_url" (tweetUrlCell username)
  let df ← addColFromApply df "media" mediaCell
  let df ← if incl_html then
      addColFromApply df "media" mediaHtmlCell
    else
      pure df
  let df ← addColFromApply df "type" typeCell
  let df := setConstCol df "tweet_count" (.int 1)
  return renameDf df

/-- Lazy-mode evaluation of the format pass: a Dask dataframe is a list of
partitions sharing one column set, and every operation used by format_df
(row-wise apply, elementwise column assignment, scalar assignment, rename)
is applied by Dask to each partition independently with the same per-row
functions. -/
def format_df_dask (parts : List Df) (incl_html : Bool) : Py (List Df) :=
  mapE (fun p => format_df p incl_html) parts

/-- Vertical concatenation of the partitions of a lazy dataframe into one
eager dataframe over the given column set. -/
def concatDf (cs : List String) (parts : List Df) : Df :=
  { colNames := cs, rows := (parts.map Df.rows).flatten }

/-- Embedding of create_dtypes: the column-to-dtype dictionary, transcribed
entry for entry as an association list in the insertion order of the source
dictionary (all keys are distinct). -/
def create_dtypes : List (String × String) :=
  let object_dtype := "object"
  let str_dtype := "string"
  let int_dtype := "Int64"
  let float_dtype := "Float64"
  let enum_dtype := "string"
  let dt_dtype := "object"
  let bool_dtype := "boolean"
  [ ("attachments.media", object_dtype),
    ("attachments.media_keys", object_dtype),
    ("attachments.poll.options", object_dtype),
    ("attachments.poll_ids", object_dtype),
    ("author.entities.description.cashtags", object_dtype),
    ("author.entities.description.hashtags", object_dtype),
    ("author.entities.description.mentions", object_dtype),
    ("author.entities.description.urls", object_dtype),
    ("author.entities.url.urls", object_dtype),
    ("author.withheld.country_codes", object_dtype),
    ("context_annotations", object_dtype),
    ("edit_history_tweet_ids", object_dtype),
    ("entities.annotations", object_dtype),
    ("entities.cashtags", object_dtype),
    ("entities.hashtags", object_dtype),
    ("entities.mentions", object_dtype),
    ("entities.urls", object_dtype),
    ("geo.coordinates.coordinates", object_dtype),
    ("geo.geo.bbox", object_dtype),
    ("matching_rules", object_dtype),
    ("withheld.country_codes", object_dtype),
    ("Unnamed: 78", object_dtype),
    ("attachments.poll.id", str_dtype),
    ("attachments.poll.voting_status", str_dtype),
    ("author.description", str_dtype),
    ("author.id", str_dtype),
    ("author.location", str_dtype),
    ("author.name", str_dtype),
    ("author.pinned_tweet_id", str_dtype),
    ("author.profile_image_url", str_dtype),
    ("author.url", str_dtype),
    ("author.username", str_dtype),
    ("author_id", str_dtype),
    ("conversation_id", str_dtype),
    ("geo.coordinates.type", str_dtype),
    ("geo.country", str_dtype),
    ("geo.country_code", str_dtype),
    ("geo.full_name", str_dtype),
    ("geo.geo.type", str_dtype),
    ("geo.id", str_dtype),
    ("geo.name", str_dtype),
    ("geo.place_id", str_dtype),
    ("geo.place_type", str_dtype),
    ("id", str_dtype),
    ("in_reply_to_user_id", str_dtype),
    ("lang", str_dtype),
    ("quoted_user_id", str_dtype),
    ("referenced_tweets.quoted.id", str_dtype),
    ("referenced_tweets.replied_to.id", str_dtype),
    ("referenced_tweets.retweeted.id", str_dtype),
    ("reply_settings", str_dtype),
    ("retweeted_user_id", str_dtype),
    ("source", str_dtype),
    ("text", str_dtype),
    ("__twarc.url", str_dtype),
    ("__twarc.version", str_dtype),
    ("media", str_dtype),
    ("tweet_url", str_dtype),
    ("username", str_dtype),
    ("user_bio", str_dtype),
    ("attachments.poll.duration_minutes", float_dtype),
    ("author.public_metrics.followers_count", int_dtype),
    ("author.public_metrics.following_count", int_dtype),
    ("author.public_metrics.listed_count", int_dtype),
    ("author.public_metrics.tweet_count", int_dtype),
    ("edit_controls.edits_remaining", int_dtype),
    ("public_metrics.impression_count", int_dtype),
    ("public_metrics.like_count", int_dtype),
    ("public_metrics.quote_count", int_dtype),
    ("public_metrics.reply_count", int_dtype),
    ("public_metrics.retweet_count", int_dtype),
    ("tweet_count", int_dtype),
    ("likes", int_dtype),
    ("quotes", int_dtype),
    ("replies", int_dtype),
    ("retweets", int_dtype),
    ("author.protected", bool_dtype),
    ("author.verified", bool_dtype),
    ("author.withheld.copyright", bool_dtype),
    ("edit_controls.is_edit_eligible", bool_dtype),
    ("possibly_sensitive", bool_dtype),
    ("withheld.copyright", bool_dtype),
    ("verified", bool_dtype),
    ("author.withheld.scope", enum_dtype),
    ("withheld.scope", enum_dtype),
    ("type", enum_dtype),
    ("attachments.poll.end_datetime", dt_dtype),
    ("author.created_at", dt_dtype),
    ("created_at", dt_dtype),
    ("edit_controls.editable_until", dt_dtype),
    ("__twarc.retrieved_at", dt_dtype),
    ("date", dt_dtype) ]

/-- The module-level TWITTER_DTYPES binding. -/
def TWITTER_DTYPES : List (String × String) := create_dtypes

/-- A wall-clock timestamp: calendar fields plus the time of day and an
optional UTC offset.  A value with offset none is timezone-naive; the
calendar and time-of-day fields always denote the local wall clock of the
carried timezone, matching how pandas normalize and tz_localize read them. -/
structure Timestamp where
  year : Int
  month : Nat
  day : Nat
  hour : Nat
  minute : Nat
  second : Nat
  microsecond : Nat
  utcOffsetMinutes : Option Int
deriving DecidableEq, Repr

/-- Embedding of Series.dt.normalize on one value: the time of day is set to
midnight, the calendar date and the timezone are unaffected. -/
def Timestamp.normalize (t : Timestamp) : Timestamp :=
  { t with hour := 0, minute := 0, second := 0, microsecond := 0 }

/-- Embedding of Series.dt.tz_localize(None) on one value: the timezone
information is removed while the local wall-clock fields are kept. -/
def Timestamp.tz_localize_none (t : Timestamp) : Timestamp :=
  { t with utcOffsetMinutes := none }

/-- The two datetime columns touched by TWITTER_DT.add_date, as a small
frame of their own: the typed created_at column and the derived date
column (empty until add_date assigns it). -/
structure DtFrame where
  created_at : List Timestamp
  date : List Timestamp
deriving DecidableEq, Repr

namespace TWITTER_DT

/-- The strftime representation of Twitter timestamps. -/
def parse : String := "%Y-%m-%dT%H:%M:%S.%fZ"

/-- The initial value of the mutable class attribute holding the datetime
columns from the Twitter API. -/
def columnsInit : List String :=
  [ "attachments.poll.end_datetime",
    "author.created_at",
    "created_at",
    "edit_controls.editable_until",
    "__twarc.retrieved_at" ]

/-- Embedding of the columns property: the tracked list is returned as a
shallow copy, which for immutable lists is the list itself. -/
def columns (cols : List String) : List String :=
  cols

/-- Embedding of add_date: assign the date column to created_at normalized
to midnight, then reassign it to its timezone-stripped version. -/
def add_date (df : DtFrame) : DtFrame :=
  let df := { df with date := df.created_at.map Timestamp.normalize }
  let df := { df with date := df.date.map Timestamp.tz_localize_none }
  df

/-- Embedding of incl_date as a transformer of the mutable column list: the
source appends the date entry with list.append, unconditionally. -/
def incl_date (cols : List String) : List String :=
  cols ++ ["date"]

/-- Embedding of remove_date: list.remove deletes the first occurrence of
the date entry, and the ValueError raised when it is absent is swallowed,
which is exactly List.erase. -/
def remove_date (cols : List String) : List String :=
  cols.erase "date"

end TWITTER_DT

/-- The frame returned by the abstractly embedded pd.read_csv call for a
resampled summary CSV: the path that was read and the column the resulting
frame is indexed by (the index_col argument of the call). -/
structure ResampledFrame where
  path : String
  index_col : String
deriving DecidableEq, Repr

/-- Embedding of os.path.join for the two-argument relative case used here:
a separator is inserted unless the directory already ends in one. -/
def pathJoin (a b : String) : String :=
  if a.data.getLast? = some '/' then a ++ b else a ++ "/" ++ b

/-- Configuration state of the Data helper object: the resampled-data
directory set in the constructor. -/
structure Data where
  resampled_dir : String
deriving DecidableEq, Repr

/-- Embedding of Data.read_resampled_df: the filepath is composed from the
resampled directory, and the pd.read_csv call is made with the literal
index_col value date written in the source, not with the index_col
parameter of the method.  The source gives index_col the default value
date; defaults are written explicitly at each call site here. -/
def Data.read_resampled_df (self : Data) (fn : String)
    (index_col : String) : ResampledFrame :=
  let fn := pathJoin self.resampled_dir fn
  let _ := index_col
  { path := fn, index_col := "date" }

/-- Embedding of Data.get_resampled_day_count_df, at its default filename
day_tweet-count.csv; the index_col default date of the reader is spelled
out. -/
def Data.get_resampled_day_count_df (self : Data) (fn : String) : ResampledFrame :=
  self.read_resampled_df fn "date"

/-- Embedding of Data.get_resampled_day_type_count_df; the index_col
default date of the reader is spelled out. -/
def Data.get_resampled_day_type_count_df (self : Data) (fn : String) : ResampledFrame :=
  self.read_resampled_df fn "date"

/-- Embedding of Data.get_resampled_day_retweet_count_df: the reader is
called with index_col set to retweet_date. -/
def Data.get_resampled_day_retweet_count_df (self : Data) (fn : String) : ResampledFrame :=
  self.read_resampled_df fn "retweet_date"

/-- Modelled from the spec wording of the tweet-type decision, for
comparison with the source classifier: if retweeted-id is present then
retweet; else if quoted-id and replied-to-id are both present then
quote/reply; else if quoted-id alone is present then quote; else if
replied-to-id is present then reply; else original. -/
def spec_tweet_type (retweeted quoted replied : Cell) : String :=
  if !(isna retweeted) then "retweet"
  else if !(isna quoted) && !(isna replied) then "quote/reply"
  else if !(isna quoted) then "quote"
  else if !(isna replied) then "reply"
  else "original"

/-- Column names of the output of format_df as a function of the input
column names: the four derived columns are appended when absent, then every
name is mapped through the rename table.  The optional HTML step reassigns
the media column, which is present by then, so it adds no name. -/
def outColNames (cs : List String) : List String :=
  (addName (addName (addName (addName cs "tweet_url") "media") "type") "tweet_count").map
    applyRename

/-- The username column selected by format_df, as a function of the column
names: the nested author.username when present, the flat username
otherwise. -/
def userKey (cs : List String) : String :=
  if "author.username" ∈ cs then "author.username" else "username"

/-- Option-valued map over a list, used to compare the two evaluation modes
of the format pass after collapsing exception identities: at this level the
first-error order is irrelevant, which matches comparing modes by the
dataset they produce. -/
def mapO {α β : Type} (f : α → Option β) : List α → Option (List β)
  | [] => some []
  | a :: l => do
    let b ← f a
    let bs ← mapO f l
    return b :: bs

/-- Stage one of the format pass at one row, Option level: compute the
tweet_url cell and store it. -/
def g1O (u : String) (r : Row) : Option Row :=
  ((tweetUrlCell u r).toOption).map (rowSet r "tweet_url")

/-- Stage two of the format pass at one row, Option level: compute the
media cell and store it. -/
def g2O (r : Row) : Option Row :=
  ((mediaCell r).toOption).map (rowSet r "media")

/-- Optional stage of the format pass at one row, Option level: rewrap the
media cell as HTML and store it. -/
def g3O (r : Row) : Option Row :=
  ((mediaHtmlCell r).toOption).map (rowSet r "media")

/-- Stage four of the format pass at one row, Option level: compute the
type cell and store it. -/
def g4O (r : Row) : Option Row :=
  ((typeCell r).toOption).map (rowSet r "type")

/-- The exception-free tail of the format pass at one row: store the
constant tweet_count cell and rename the keys. -/
def tailRow (r : Row) : Row :=
  (rowSet r "tweet_count" (.int 1)).map renamePair

/-- The format pass fused into one per-row function at the Option level:
the tweet_url, media, optional media HTML and type cells are computed and
stored in sequence, then the constant tweet_count cell is stored and the
keys renamed.  This is the normal form both evaluation modes are reduced
to. -/
def formatO (u : String) (incl : Bool) (r : Row) : Option Row :=
  (g1O u r).bind fun r =>
  (g2O r).bind fun r =>
  (if incl then g3O r else some r).bind fun r =>
  (g4O r).bind fun r =>
  some (tailRow r)

/-
Theorems.
-/

/-- C1: for every row carrying the three referenced-tweet id fields, the
classifier returns exactly one of retweet, quote/reply, quote, reply,
original, following the spec precedence: retweeted-id first (regardless of
the other two fields), then the quoted-and-replied combination, then quoted
alone, then replied alone, then the default. -/
theorem find_tweet_type_spec (r : Row) (a b c : Cell)
    (ha : rowGet r "referenced_tweets.retweeted.id" = .ok a)
    (hb : rowGet r "referenced_tweets.quoted.id" = .ok b)
    (hc : rowGet r "referenced_tweets.replied_to.id" = .ok c) :
    find_tweet_type r = .ok (spec_tweet_type a b c) ∧
      spec_tweet_type a b c ∈ ["retweet", "quote/reply", "quote", "reply", "original"] := by
  constructor
  · cases h1 : isna a <;> cases h2 : isna b <;> cases h3 : isna c <;>
      simp [find_tweet_type, spec_tweet_type, ha, hb, hc, h1, h2, h3,
        bind, Except.bind, pure, Except.pure]
  · cases h1 : isna a <;> cases h2 : isna b <;> cases h3 : isna c <;>
      simp [spec_tweet_type, h1, h2, h3]

/-- Witness for C1 at a concrete row holding an extra column, a quoted id
and a replied-to id: the classifier returns quote/reply. -/
theorem find_tweet_type_spec_witness :
    find_tweet_type
        [("lang", Cell.str "en"),
         ("referenced_tweets.retweeted.id", Cell.na),
         ("referenced_tweets.quoted.id", Cell.str "5"),
         ("referenced_tweets.replied_to.id", Cell.str "6")] =
      .ok (spec_tweet_type Cell.na (Cell.str "5") (Cell.str "6")) ∧
      spec_tweet_type Cell.na (Cell.str "5") (Cell.str "6") ∈
        ["retweet", "quote/reply", "quote", "reply", "original"] :=
  find_tweet_type_spec _ _ _ _ rfl rfl rfl

/-- C2 counterexample: on the encoding of an empty media list the extractor
indexes the empty list and raises IndexError instead of returning the
sentinel, so it is not the case that it returns a value on every input. -/
theorem get_image_url_raises_on_empty_list :
    get_image_url (Cell.mediaEnc (MediaStr.records [])) = .error "IndexError" := rfl

/-- C2 amended: media extraction returns the sentinel for a missing or null
input, returns the url of the first record when present and the sentinel
when the first record lacks a url key, but raises ValueError on a string
that the literal parser rejects and IndexError on the encoding of an empty
list. -/
theorem get_image_url_amended :
    (get_image_url Cell.na = .ok NO_IMAGE) ∧
    (∀ (rec : List (String × String)) (rest : List (List (String × String))) (u : String),
        rec.lookup "url" = some u →
        get_image_url (Cell.mediaEnc (MediaStr.records (rec :: rest))) = .ok u) ∧
    (∀ (rec : List (String × String)) (rest : List (List (String × String))),
        rec.lookup "url" = none →
        get_image_url (Cell.mediaEnc (MediaStr.records (rec :: rest))) = .ok NO_IMAGE) ∧
    (get_image_url (Cell.mediaEnc MediaStr.unparsable) = .error "ValueError") ∧
    (get_image_url (Cell.mediaEnc (MediaStr.records [])) = .error "IndexError") := by
  refine ⟨rfl, ?_, ?_, rfl, rfl⟩
  · intro rec rest u h
    simp [get_image_url, isna, dictGetD, h]
  · intro rec rest h
    simp [get_image_url, isna, dictGetD, h]

/-- Witness for C2 amended, at the concrete encoding from the spec example:
a one-record list whose record maps url to an image address. -/
theorem get_image_url_amended_witness :
    get_image_url (Cell.mediaEnc (MediaStr.records [[("url", "http://x/y.png")]])) =
      .ok "http://x/y.png" :=
  get_image_url_amended.2.1 [("url", "http://x/y.png")] [] "http://x/y.png" rfl

/-- C3 counterexample: from the initial tracked column list, calling
incl_date twice leaves two date entries, not one, and the state after two
calls differs from the state after one. -/
theorem incl_date_not_idempotent :
    (TWITTER_DT.incl_date (TWITTER_DT.incl_date TWITTER_DT.columnsInit)).count "date" = 2 ∧
      TWITTER_DT.incl_date (TWITTER_DT.incl_date TWITTER_DT.columnsInit) ≠
        TWITTER_DT.incl_date TWITTER_DT.columnsInit := by
  decide

/-- C3 amended: incl_date appends a date entry unconditionally, so each
call raises the number of date entries by one (two calls from a date-free
state leave two entries, so the operation is not idempotent), while
remove_date on a list without a date entry is a no-op rather than an
error. -/
theorem incl_date_appends (cols : List String) :
    ((TWITTER_DT.incl_date cols).count "date" = cols.count "date" + 1) ∧
    ((TWITTER_DT.incl_date (TWITTER_DT.incl_date cols)).count "date" = cols.count "date" + 2) ∧
    ("date" ∉ cols → TWITTER_DT.remove_date cols = cols) := by
  refine ⟨?_, ?_, ?_⟩
  · simp [TWITTER_DT.incl_date]
  · simp [TWITTER_DT.incl_date]
  · intro h
    simp [TWITTER_DT.remove_date, List.erase_of_not_mem h]

/-- Witness for C3 amended at the initial tracked column list, which has no
date entry. -/
theorem incl_date_appends_witness :
    ((TWITTER_DT.incl_date TWITTER_DT.columnsInit).count "date" =
        TWITTER_DT.columnsInit.count "date" + 1) ∧
      ((TWITTER_DT.incl_date (TWITTER_DT.incl_date TWITTER_DT.columnsInit)).count "date" =
        TWITTER_DT.columnsInit.count "date" + 2) ∧
      TWITTER_DT.remove_date TWITTER_DT.columnsInit = TWITTER_DT.columnsInit :=
  ⟨(incl_date_appends TWITTER_DT.columnsInit).1,
   (incl_date_appends TWITTER_DT.columnsInit).2.1,
   (incl_date_appends TWITTER_DT.columnsInit).2.2 (by decide)⟩

/-- C4: the schema map misses two post-transform column names.  It has no
entry for the rename targets name and impressions, although it does carry
the four derived columns and the seven other rename targets, so the claimed
full coverage of post-transform names fails exactly on those two. -/
theorem create_dtypes_missing_renamed_columns :
    (create_dtypes.lookup "name" = none ∧ create_dtypes.lookup "impressions" = none) ∧
    (create_dtypes.lookup "tweet_url" = some "string" ∧
     create_dtypes.lookup "media" = some "string" ∧
     create_dtypes.lookup "type" = some "string" ∧
     create_dtypes.lookup "tweet_count" = some "Int64" ∧
     create_dtypes.lookup "username" = some "string" ∧
     create_dtypes.lookup "verified" = some "boolean" ∧
     create_dtypes.lookup "likes" = some "Int64" ∧
     create_dtypes.lookup "quotes" = some "Int64" ∧
     create_dtypes.lookup "replies" = some "Int64" ∧
     create_dtypes.lookup "retweets" = some "Int64" ∧
     create_dtypes.lookup "user_bio" = some "string") := by
  decide

/-- C5: the day-retweet-count loader passes retweet_date to the generic
reader, but the reader hardcodes date as the index column of the read call,
so the returned frame is indexed by date and not by the passed column. -/
theorem read_resampled_index_col_hardcoded :
    ((Data.mk "./data/baldwin/resampled/").get_resampled_day_retweet_count_df
        "day_retweet-count.csv").index_col = "date" ∧
      ((Data.mk "./data/baldwin/resampled/").get_resampled_day_retweet_count_df
        "day_retweet-count.csv").index_col ≠ "retweet_date" ∧
      ((Data.mk "./data/baldwin/resampled/").get_resampled_day_retweet_count_df
        "day_retweet-count.csv").path = "./data/baldwin/resampled/day_retweet-count.csv" := by
  decide

/-- C6: for every username and tweet id, the tweet-URL constructor returns
exactly the twitter.com status URL with the two values interpolated, for
any trailing extra fields of the selected row. -/
theorem make_tweet_url_format (u i : String) (rest : List Cell) :
    make_tweet_url (Cell.str u :: Cell.str i :: rest) =
      .ok ("https://twitter.com/" ++ u ++ "/status/" ++ i) := by
  simp [make_tweet_url, cellStr]

/-- C7: the date-derivation pass maps every created_at value to the
timezone-naive midnight of its own calendar date, and on the spec example
of 2023-05-01T14:32:00.000Z (offset zero) it yields naive midnight of
May 1 2023. -/
theorem add_date_midnight_naive :
    (∀ df : DtFrame, (TWITTER_DT.add_date df).date =
      df.created_at.map (fun t =>
        { year := t.year, month := t.month, day := t.day, hour := 0, minute := 0,
          second := 0, microsecond := 0, utcOffsetMinutes := none })) ∧
    (TWITTER_DT.add_date
        { created_at := [⟨2023, 5, 1, 14, 32, 0, 0, some 0⟩], date := [] }).date =
      [⟨2023, 5, 1, 0, 0, 0, 0, none⟩] := by
  constructor
  · intro df
    simp [TWITTER_DT.add_date, List.map_map]
    intro a ha
    rfl
  · rfl

/-- C8: the media-HTML wrapper passes the sentinel through unchanged and
wraps every other string in an anchor tag whose href is the URL, containing
an image tag whose src is the URL at the fixed width of 500px (the \x27
escapes denote single quotes). -/
theorem get_image_html_spec (url : String) :
    (url = NO_IMAGE → get_image_html url = url) ∧
    (url ≠ NO_IMAGE → get_image_html url =
      "<a href=\x27" ++ url ++ "\x27>\x27<img src=\x27" ++ url ++
        "\x27 width=\x27500px\x27></a>") := by
  constructor <;> intro h <;> simp [get_image_html, h]

/-- Witness for C8 at a concrete URL and at the sentinel. -/
theorem get_image_html_spec_witness :
    (get_image_html "http://x/y.png" =
      "<a href=\x27" ++ "http://x/y.png" ++ "\x27>\x27<img src=\x27" ++ "http://x/y.png" ++
        "\x27 width=\x27500px\x27></a>") ∧
      get_image_html NO_IMAGE = NO_IMAGE :=
  ⟨(get_image_html_spec "http://x/y.png").2 (by decide),
   (get_image_html_spec NO_IMAGE).1 rfl⟩

theorem toOption_ok {α : Type} (a : α) : (Except.ok a : Py α).toOption = some a := rfl

theorem toOption_error {α : Type} (e : String) :
    (Except.error e : Py α).toOption = none := rfl

theorem toOption_bind {α β : Type} (x : Py α) (f : α → Py β) :
    (x >>= f).toOption = x.toOption.bind (fun a => (f a).toOption) := by
  cases x <;> rfl

theorem toOption_pure {α : Type} (a : α) : (pure a : Py α).toOption = some a := rfl

theorem mapO_nil {α β : Type} (f : α → Option β) : mapO f [] = some [] := rfl

theorem mapO_cons {α β : Type} (f : α → Option β) (a : α) (l : List α) :
    mapO f (a :: l) = (f a).bind (fun b => (mapO f l).bind (fun bs => some (b :: bs))) := rfl

theorem mapE_toOption {α β : Type} (f : α → Py β) (l : List α) :
    (mapE f l).toOption = mapO (fun a => (f a).toOption) l := by
  induction l with
  | nil => rfl
  | cons a l ih =>
    show ((f a) >>= fun b => mapE f l >>= fun bs => pure (b :: bs)).toOption = _
    rw [toOption_bind, mapO_cons]
    cases f a with
    | error e => rfl
    | ok b =>
      simp only [toOption_ok, Option.some_bind]
      rw [toOption_bind, ih]
      cases mapO (fun a => (f a).toOption) l <;> rfl

theorem mapO_bind_mapO {α β γ : Type} (f : α → Option β) (g : β → Option γ) (l : List α) :
    (mapO f l).bind (mapO g) = mapO (fun a => (f a).bind g) l := by
  induction l with
  | nil => rfl
  | cons a l ih =>
    rw [mapO_cons, mapO_cons]
    cases hfa : f a with
    | none => rfl
    | some b =>
      simp only [Option.some_bind]
      cases hfl : mapO f l with
      | none =>
        have hr : mapO (fun a => (f a).bind g) l = none := by
          rw [← ih, hfl]; rfl
        rw [hr]
        cases g b <;> rfl
      | some bs =>
        have hr : mapO (fun a => (f a).bind g) l = mapO g bs := by
          rw [← ih, hfl]; rfl
        rw [hr]
        simp only [Option.some_bind]
        rw [mapO_cons]

theorem mapO_map {α β γ : Type} (f : α → Option β) (g : β → γ) (l : List α) :
    mapO (fun a => (f a).map g) l = (mapO f l).map (List.map g) := by
  induction l with
  | nil => rfl
  | cons a l ih =>
    rw [mapO_cons, mapO_cons, ih]
    cases f a with
    | none => rfl
    | some b =>
      cases mapO f l <;> rfl

theorem mapO_congr {α β : Type} {f g : α → Option β} {l : List α}
    (h : ∀ a ∈ l, f a = g a) : mapO f l = mapO g l := by
  induction l with
  | nil => rfl
  | cons a l ih =>
    rw [mapO_cons, mapO_cons, h a (by simp), ih (fun a ha => h a (by simp [ha]))]

theorem mapO_append {α β : Type} (f : α → Option β) (l1 l2 : List α) :
    mapO f (l1 ++ l2) =
      (mapO f l1).bind (fun b1 => (mapO f l2).map (fun b2 => b1 ++ b2)) := by
  induction l1 with
  | nil =>
    simp only [List.nil_append, mapO_nil, Option.some_bind]
    cases mapO f l2 <;> rfl
  | cons a l ih =>
    rw [List.cons_append, mapO_cons, mapO_cons, ih]
    cases f a with
    | none => rfl
    | some b =>
      simp only [Option.some_bind]
      cases mapO f l with
      | none => rfl
      | some bs =>
        simp only [Option.some_bind]
        cases mapO f l2 <;> rfl

theorem mapO_flatten {α β : Type} (f : α → Option β) (ls : List (List α)) :
    mapO f ls.flatten = (mapO (mapO f) ls).map List.flatten := by
  induction ls with
  | nil => rfl
  | cons l ls ih =>
    rw [List.flatten_cons, mapO_append, ih, mapO_cons]
    cases mapO f l with
    | none => rfl
    | some bs =>
      simp only [Option.some_bind]
      cases mapO (mapO f) ls <;> rfl

theorem mapO_comp {α β γ : Type} (g : β → Option γ) (h : α → β) (l : List α) :
    mapO g (l.map h) = mapO (fun a => g (h a)) l := by
  induction l with
  | nil => rfl
  | cons a l ih => rw [List.map_cons, mapO_cons, mapO_cons, ih]

theorem addName_of_mem {cs : List String} {n : String} (h : n ∈ cs) :
    addName cs n = cs := by
  simp [addName, h]

theorem mem_addName_self (cs : List String) (n : String) : n ∈ addName cs n := by
  by_cases h : n ∈ cs <;> simp [addName, h]

theorem format_df_eq (df : Df) (incl : Bool) :
    format_df df incl =
      addColFromApply df "tweet_url"
          (tweetUrlCell (if hasCol df "author.username" then "author.username" else "username"))
        >>= fun df1 =>
      addColFromApply df1 "media" mediaCell >>= fun df2 =>
      (if incl then addColFromApply df2 "media" mediaHtmlCell else pure df2) >>= fun df3 =>
      addColFromApply df3 "type" typeCell >>= fun df4 =>
      pure (renameDf (setConstCol df4 "tweet_count" (.int 1))) := by
  cases incl <;> rfl

theorem bind_some_eq_map {α β : Type} (x : Option α) (g : α → β) :
    x.bind (fun a => some (g a)) = x.map g := by
  cases x <;> rfl

theorem addCol_toOption (cs : List String) (rows : List Row) (n : String) (f : Row → Py Cell) :
    (addColFromApply ⟨cs, rows⟩ n f).toOption =
      (mapO (fun r => (f r).toOption.map (rowSet r n)) rows).map
        (fun rs => Df.mk (addName cs n) rs) := by
  unfold addColFromApply
  simp only [toOption_bind, mapE_toOption, toOption_pure, bind_some_eq_map]

theorem addCol_bind_toOption (cs : List String) (rows : List Row) (n : String)
    (f : Row → Py Cell) (k : Df → Py Df) :
    (addColFromApply ⟨cs, rows⟩ n f >>= k).toOption =
      (mapO (fun r => (f r).toOption.map (rowSet r n)) rows).bind
        (fun rs => (k ⟨addName cs n, rs⟩).toOption) := by
  rw [toOption_bind, addCol_toOption, Option.bind_map]
  rfl

theorem mapO_bind_mapO_map {α β γ δ : Type} (f : α → Option β) (g : β → Option γ)
    (l : List α) (F : List γ → δ) :
    (mapO f l).bind (fun x => (mapO g x).map F) =
      (mapO (fun a => (f a).bind g) l).map F := by
  rw [← mapO_bind_mapO]
  cases mapO f l <;> rfl

theorem g1O_fold (u : String) :
    (fun r => Option.map (rowSet r "tweet_url") (tweetUrlCell u r).toOption) = g1O u := rfl

theorem g2O_fold :
    (fun r => Option.map (rowSet r "media") (mediaCell r).toOption) = g2O := rfl

theorem g3O_fold :
    (fun r => Option.map (rowSet r "media") (mediaHtmlCell r).toOption) = g3O := rfl

theorem g4O_fold :
    (fun r => Option.map (rowSet r "type") (typeCell r).toOption) = g4O := rfl

theorem formatO_false (u : String) (r : Row) :
    formatO u false r = ((g1O u r).bind (fun b => (g2O b).bind g4O)).map tailRow := by
  simp only [formatO, Bool.false_eq_true, if_false, Option.some_bind]
  cases g1O u r with
  | none => rfl
  | some r1 =>
    simp only [Option.some_bind]
    cases g2O r1 with
    | none => rfl
    | some r2 =>
      simp only [Option.some_bind]
      exact bind_some_eq_map _ _

theorem formatO_true (u : String) (r : Row) :
    formatO u true r =
      ((g1O u r).bind (fun b => (g2O b).bind (fun c => (g3O c).bind g4O))).map tailRow := by
  simp only [formatO, if_true, Option.some_bind]
  cases g1O u r with
  | none => rfl
  | some r1 =>
    simp only [Option.some_bind]
    cases g2O r1 with
    | none => rfl
    | some r2 =>
      simp only [Option.some_bind]
      cases g3O r2 with
      | none => rfl
      | some r3 =>
        simp only [Option.some_bind]
        exact bind_some_eq_map _ _

theorem format_toOption (cs : List String) (rows : List Row) (incl : Bool) :
    (format_df ⟨cs, rows⟩ incl).toOption =
      (mapO (formatO (userKey cs) incl) rows).map
        (fun rs => Df.mk (outColNames cs) rs) := by
  rw [format_df_eq]
  have hu : (if hasCol ⟨cs, rows⟩ "author.username" then "author.username" else "username") =
      userKey cs := by
    by_cases h : "author.username" ∈ cs <;> simp [hasCol, userKey, h]
  rw [hu]
  cases incl with
  | false =>
    simp only [Bool.false_eq_true, if_false, pure_bind]
    simp only [addCol_bind_toOption, toOption_pure, bind_some_eq_map]
    rw [g1O_fold, g2O_fold, g4O_fold]
    simp only [mapO_bind_mapO_map]
    have hF : (fun a : List Row => renameDf (setConstCol
          ⟨addName (addName (addName cs "tweet_url") "media") "type", a⟩
          "tweet_count" (Cell.int 1))) =
        fun rs : List Row => Df.mk (outColNames cs) (rs.map tailRow) := by
      funext rs
      simp only [renameDf, setConstCol, outColNames, List.map_map]
      rfl
    rw [hF]
    have hfuse : mapO (formatO (userKey cs) false) rows =
        (mapO (fun a => (g1O (userKey cs) a).bind fun b => (g2O b).bind g4O) rows).map
          (List.map tailRow) := by
      rw [← mapO_map]
      exact mapO_congr (fun r _ => formatO_false _ r)
    rw [hfuse, Option.map_map]
    rfl
  | true =>
    simp only [if_true, pure_bind]
    simp only [addCol_bind_toOption, toOption_pure, bind_some_eq_map]
    rw [g1O_fold, g2O_fold, g3O_fold, g4O_fold]
    simp only [mapO_bind_mapO_map]
    simp only [addName_of_mem (mem_addName_self (addName cs "tweet_url") "media")]
    have hF : (fun a : List Row => renameDf (setConstCol
          ⟨addName (addName (addName cs "tweet_url") "media") "type", a⟩
          "tweet_count" (Cell.int 1))) =
        fun rs : List Row => Df.mk (outColNames cs) (rs.map tailRow) := by
      funext rs
      simp only [renameDf, setConstCol, outColNames, List.map_map]
      rfl
    rw [hF]
    have hfuse : mapO (formatO (userKey cs) true) rows =
        (mapO (fun a => (g1O (userKey cs) a).bind fun b =>
            (g2O b).bind fun c => (g3O c).bind g4O) rows).map
          (List.map tailRow) := by
      rw [← mapO_map]
      exact mapO_congr (fun r _ => formatO_true _ r)
    rw [hfuse, Option.map_map]
    rfl

/-- C9: dual-mode equivalence of the format pass.  For every partitioning
of the rows into chunks sharing the column-name list, running the format
pass on each chunk independently and concatenating gives the same outcome
as running it on the whole dataset at once: both modes succeed together,
and on success they produce the same dataset, row for row (exception
identities are collapsed by toOption, since a failing dataset is produced
by neither mode). -/
theorem format_df_dual_mode (cs : List String) (parts : List Df) (incl : Bool)
    (hcols : ∀ p ∈ parts, p.colNames = cs) :
    (format_df_dask parts incl).toOption.map (concatDf (outColNames cs)) =
      (format_df (concatDf cs parts) incl).toOption := by
  have hconcat : concatDf cs parts = ⟨cs, (parts.map Df.rows).flatten⟩ := rfl
  rw [hconcat, format_toOption, mapO_flatten, mapO_comp, Option.map_map]
  unfold format_df_dask
  rw [mapE_toOption]
  have hpt : ∀ p ∈ parts, (format_df p incl).toOption =
      (mapO (formatO (userKey cs) incl) p.rows).map
        (fun rs => Df.mk (outColNames cs) rs) := by
    intro p hp
    have hcs : p.colNames = cs := hcols p hp
    cases p with
    | mk c r =>
      cases hcs
      exact format_toOption c r incl
  rw [mapO_congr hpt, mapO_map, Option.map_map]
  cases mapO (fun p => mapO (formatO (userKey cs) incl) p.rows) parts with
  | none => rfl
  | some z =>
    show some (concatDf (outColNames cs) (z.map fun rs => Df.mk (outColNames cs) rs)) =
      some (Df.mk (outColNames cs) z.flatten)
    have hid : (Df.rows ∘ fun rs : List Row => Df.mk (outColNames cs) rs) =
        fun rs : List Row => rs := rfl
    simp only [concatDf, List.map_map, hid, List.map_id']

/-- Witness for C9 at a concrete two-partition dataset (one ordinary tweet,
one retweet with a media attachment): the two modes agree, and the run is a
success, not a pair of failures. -/
theorem format_df_dual_mode_witness :
    ((format_df_dask
        [⟨["username", "id", "attachments.media", "referenced_tweets.retweeted.id",
            "referenced_tweets.quoted.id", "referenced_tweets.replied_to.id"],
          [[("username", Cell.str "alice"), ("id", Cell.str "1"),
            ("attachments.media", Cell.na),
            ("referenced_tweets.retweeted.id", Cell.na),
            ("referenced_tweets.quoted.id", Cell.na),
            ("referenced_tweets.replied_to.id", Cell.na)]]⟩,
         ⟨["username", "id", "attachments.media", "referenced_tweets.retweeted.id",
            "referenced_tweets.quoted.id", "referenced_tweets.replied_to.id"],
          [[("username", Cell.str "bob"), ("id", Cell.str "2"),
            ("attachments.media", Cell.mediaEnc (MediaStr.records [[("url", "http://img/1.png")]])),
            ("referenced_tweets.retweeted.id", Cell.str "9"),
            ("referenced_tweets.quoted.id", Cell.na),
            ("referenced_tweets.replied_to.id", Cell.na)]]⟩]
        false).toOption.map
      (concatDf (outColNames
        ["username", "id", "attachments.media", "referenced_tweets.retweeted.id",
         "referenced_tweets.quoted.id", "referenced_tweets.replied_to.id"])) =
      (format_df
        (concatDf
          ["username", "id", "attachments.media", "referenced_tweets.retweeted.id",
           "referenced_tweets.quoted.id", "referenced_tweets.replied_to.id"]
          [⟨["username", "id", "attachments.media", "referenced_tweets.retweeted.id",
              "referenced_tweets.quoted.id", "referenced_tweets.replied_to.id"],
            [[("username", Cell.str "alice"), ("id", Cell.str "1"),
              ("attachments.media", Cell.na),
              ("referenced_tweets.retweeted.id", Cell.na),
              ("referenced_tweets.quoted.id", Cell.na),
              ("referenced_tweets.replied_to.id", Cell.na)]]⟩,
           ⟨["username", "id", "attachments.media", "referenced_tweets.retweeted.id",
              "referenced_tweets.quoted.id", "referenced_tweets.replied_to.id"],
            [[("username", Cell.str "bob"), ("id", Cell.str "2"),
              ("attachments.media", Cell.mediaEnc (MediaStr.records [[("url", "http://img/1.png")]])),
              ("referenced_tweets.retweeted.id", Cell.str "9"),
              ("referenced_tweets.quoted.id", Cell.na),
              ("referenced_tweets.replied_to.id", Cell.na)]]⟩])
        false).toOption) ∧
      (format_df
        (concatDf
          ["username", "id", "attachments.media", "referenced_tweets.retweeted.id",
           "referenced_tweets.quoted.id", "referenced_tweets.replied_to.id"]
          [⟨["username", "id", "attachments.media", "referenced_tweets.retweeted.id",
              "referenced_tweets.quoted.id", "referenced_tweets.replied_to.id"],
            [[("username", Cell.str "alice"), ("id", Cell.str "1"),
              ("attachments.media", Cell.na),
              ("referenced_tweets.retweeted.id", Cell.na),
              ("referenced_tweets.quoted.id", Cell.na),
              ("referenced_tweets.replied_to.id", Cell.na)]]⟩,
           ⟨["username", "id", "attachments.media", "referenced_tweets.retweeted.id",
              "referenced_tweets.quoted.id", "referenced_tweets.replied_to.id"],
            [[("username", Cell.str "bob"), ("id", Cell.str "2"),
              ("attachments.media", Cell.mediaEnc (MediaStr.records [[("url", "http://img/1.png")]])),
              ("referenced_tweets.retweeted.id", Cell.str "9"),
              ("referenced_tweets.quoted.id", Cell.na),
              ("referenced_tweets.replied_to.id", Cell.na)]]⟩])
        false).toOption ≠ none :=
  ⟨format_df_dual_mode _ _ false (by decide), by decide⟩

theorem mapO_some_pointwise {α β : Type} (f : α → Option β) (l : List α) (l' : List β)
    (h : mapO f l = some l') :
    l'.length = l.length ∧
      ∀ (i : Nat) (a : α), l[i]? = some a → ∃ b, f a = some b ∧ l'[i]? = some b := by
  induction l generalizing l' with
  | nil =>
    rw [mapO_nil, Option.some_inj] at h
    subst h
    refine ⟨rfl, ?_⟩
    intro i a hi
    simp at hi
  | cons a l ih =>
    rw [mapO_cons] at h
    cases hfa : f a with
    | none => rw [hfa] at h; simp at h
    | some b =>
      rw [hfa, Option.some_bind] at h
      cases hfl : mapO f l with
      | none => rw [hfl] at h; simp at h
      | some bs =>
        rw [hfl, Option.some_bind, Option.some_inj] at h
        subst h
        obtain ⟨hlen, hpt⟩ := ih bs hfl
        refine ⟨by simp [hlen], ?_⟩
        intro i x hi
        cases i with
        | zero =>
          simp only [List.getElem?_cons_zero, Option.some_inj] at hi
          subst hi
          refine ⟨b, hfa, ?_⟩
          simp
        | succ i =>
          simp only [List.getElem?_cons_succ] at hi ⊢
          exact hpt i x hi

theorem rowSet_getElem_ne (r : Row) (n : String) (v : Cell) (j : Nat) (k : String) (c : Cell)
    (hj : r[j]? = some (k, c)) (hk : k ≠ n) :
    (rowSet r n v)[j]? = some (k, c) := by
  induction r generalizing j with
  | nil => simp at hj
  | cons p rest ih =>
    cases j with
    | zero =>
      simp at hj
      subst hj
      rw [rowSet]
      rw [if_neg hk]
      simp
    | succ j =>
      simp at hj
      rw [rowSet]
      by_cases hp : p.1 = n
      · rw [if_pos hp]
        simpa using hj
      · rw [if_neg hp]
        simpa using ih j hj

theorem lookup_none_of_not_mem_keys {k : String} {l : List (String × String)}
    (h : k ∉ l.map Prod.fst) : l.lookup k = none := by
  induction l with
  | nil => rfl
  | cons p rest ih =>
    simp only [List.map_cons, List.mem_cons, not_or] at h
    have hbe : (k == p.1) = false := beq_eq_false_iff_ne.mpr h.1
    have hred : List.lookup k (p :: rest) = List.lookup k rest := by
      show (match k == p.1 with
        | true => some p.2
        | false => List.lookup k rest) = List.lookup k rest
      rw [hbe]
    rw [hred]
    exact ih h.2

theorem formatO_frame (u : String) (incl : Bool) (r r' : Row)
    (h : formatO u incl r = some r') (j : Nat) (k : String) (c : Cell)
    (hj : r[j]? = some (k, c))
    (hk1 : k ≠ "tweet_url") (hk2 : k ≠ "media") (hk3 : k ≠ "type") (hk4 : k ≠ "tweet_count")
    (hk5 : renameMap.lookup k = none) :
    r'[j]? = some (k, c) := by
  unfold formatO at h
  rcases Option.bind_eq_some.mp h with ⟨r1, hg1, h⟩
  simp only [g1O] at hg1
  rcases Option.map_eq_some'.mp hg1 with ⟨v1, hv1, hr1⟩
  subst hr1
  have hj1 := rowSet_getElem_ne r "tweet_url" v1 j k c hj hk1
  rcases Option.bind_eq_some.mp h with ⟨r2, hg2, h⟩
  simp only [g2O] at hg2
  rcases Option.map_eq_some'.mp hg2 with ⟨v2, hv2, hr2⟩
  subst hr2
  have hj2 := rowSet_getElem_ne _ "media" v2 j k c hj1 hk2
  rcases Option.bind_eq_some.mp h with ⟨r3, hg3, h⟩
  have hj3 : r3[j]? = some (k, c) := by
    cases incl with
    | false =>
      simp only [Bool.false_eq_true, if_false, Option.some_inj] at hg3
      subst hg3
      exact hj2
    | true =>
      simp only [if_true, g3O] at hg3
      rcases Option.map_eq_some'.mp hg3 with ⟨v3, hv3, hr3⟩
      subst hr3
      exact rowSet_getElem_ne _ "media" v3 j k c hj2 hk2
  rcases Option.bind_eq_some.mp h with ⟨r4, hg4, h⟩
  simp only [g4O] at hg4
  rcases Option.map_eq_some'.mp hg4 with ⟨v4, hv4, hr4⟩
  subst hr4
  have hj4 := rowSet_getElem_ne _ "type" v4 j k c hj3 hk3
  rw [Option.some_inj] at h
  subst h
  unfold tailRow
  rw [List.getElem?_map, rowSet_getElem_ne _ "tweet_count" (.int 1) j k c hj4 hk4]
  simp [renamePair, applyRename, hk5]

/-- C10: frame effect of the format pass.  Every column whose name is not
one of the four derived columns and not a source name of the rename table
is left untouched: the output has as many rows as the input, and each such
key-cell pair of an input row reappears unchanged, at the same position, in
the corresponding output row. -/
theorem format_df_frame (df : Df) (incl : Bool) (out : Df)
    (h : format_df df incl = .ok out) (i j : Nat) (r : Row) (k : String) (c : Cell)
    (hrow : df.rows[i]? = some r) (hj : r[j]? = some (k, c))
    (hk : k ∉ ["tweet_url", "media", "type", "tweet_count"])
    (hks : k ∉ renameMap.map Prod.fst) :
    out.rows.length = df.rows.length ∧
      ∃ r2, out.rows[i]? = some r2 ∧ r2[j]? = some (k, c) := by
  cases df with
  | mk cs rows =>
    have hopt : (format_df ⟨cs, rows⟩ incl).toOption = some out := by rw [h]; rfl
    rw [format_toOption] at hopt
    rcases Option.map_eq_some'.mp hopt with ⟨rs, hrs, hout⟩
    obtain ⟨hlen, hpt⟩ := mapO_some_pointwise _ _ _ hrs
    subst hout
    simp only [List.mem_cons, List.not_mem_nil, not_or, or_false] at hk
    obtain ⟨hb, hfr, hidx⟩ := hpt i r hrow
    refine ⟨hlen, hb, hidx, ?_⟩
    exact formatO_frame _ _ _ _ hfr j k c hj hk.1 hk.2.1 hk.2.2.1 hk.2.2.2
      (lookup_none_of_not_mem_keys hks)

/-- Witness for C10 at a concrete one-row dataset holding an extra lang
column at position zero: the format pass succeeds (with HTML media enabled)
and the lang pair survives unchanged at its position. -/
theorem format_df_frame_witness :
    (Df.mk
        ["lang", "username", "id", "attachments.media", "referenced_tweets.retweeted.id",
         "referenced_tweets.quoted.id", "referenced_tweets.replied_to.id", "tweet_url",
         "media", "type", "tweet_count"]
        [[("lang", Cell.str "en"),
          ("username", Cell.str "alice"),
          ("id", Cell.str "7"),
          ("attachments.media", Cell.na),
          ("referenced_tweets.retweeted.id", Cell.na),
          ("referenced_tweets.quoted.id", Cell.str "3"),
          ("referenced_tweets.replied_to.id", Cell.na),
          ("tweet_url", Cell.str "https://twitter.com/alice/status/7"),
          ("media", Cell.str "No image URL"),
          ("type", Cell.str "quote"),
          ("tweet_count", Cell.int 1)]]).rows.length =
      (Df.mk
        ["lang", "username", "id", "attachments.media", "referenced_tweets.retweeted.id",
         "referenced_tweets.quoted.id", "referenced_tweets.replied_to.id"]
        [[("lang", Cell.str "en"), ("username", Cell.str "alice"), ("id", Cell.str "7"),
          ("attachments.media", Cell.na), ("referenced_tweets.retweeted.id", Cell.na),
          ("referenced_tweets.quoted.id", Cell.str "3"),
          ("referenced_tweets.replied_to.id", Cell.na)]]).rows.length ∧
      ∃ r2,
        (Df.mk
          ["lang", "username", "id", "attachments.media", "referenced_tweets.retweeted.id",
           "referenced_tweets.quoted.id", "referenced_tweets.replied_to.id", "tweet_url",
           "media", "type", "tweet_count"]
          [[("lang", Cell.str "en"),
            ("username", Cell.str "alice"),
            ("id", Cell.str "7"),
            ("attachments.media", Cell.na),
            ("referenced_tweets.retweeted.id", Cell.na),
            ("referenced_tweets.quoted.id", Cell.str "3"),
            ("referenced_tweets.replied_to.id", Cell.na),
            ("tweet_url", Cell.str "https://twitter.com/alice/status/7"),
            ("media", Cell.str "No image URL"),
            ("type", Cell.str "quote"),
            ("tweet_count", Cell.int 1)]]).rows[0]? = some r2 ∧
          r2[0]? = some ("lang", Cell.str "en") :=
  format_df_frame
    (Df.mk
      ["lang", "username", "id", "attachments.media", "referenced_tweets.retweeted.id",
       "referenced_tweets.quoted.id", "referenced_tweets.replied_to.id"]
      [[("lang", Cell.str "en"), ("username", Cell.str "alice"), ("id", Cell.str "7"),
        ("attachments.media", Cell.na), ("referenced_tweets.retweeted.id", Cell.na),
        ("referenced_tweets.quoted.id", Cell.str "3"),
        ("referenced_tweets.replied_to.id", Cell.na)]])
    true _ rfl 0 0 _ "lang" (Cell.str "en") rfl rfl (by decide) (by decide)

end Helpers
